import Mathlib

/-!
Shallow embedding of `scripts/run_pipeline.py` from the TestCaseGenerator
repository: the stage orchestrator (`main`), the artifact-store helpers
(`ensure_dirs`, `load_raw_text`) and the audit logger (`save_audit_log`),
together with theorems settling the specification claims.

The filesystem is modelled as a set of existing directories plus an
association list from `(directory, filename)` to file content, where the
content is the list of chunks written to the file (write mode replaces the
list with a singleton, append mode appends one element).  External
collaborators (normalizer, coverage expander, generator, validator,
deduplicator) are pure functions supplied as a parameter record, matching
the spec's treatment of them as black boxes; records of every intermediate
type are represented by their serialized form (`String`).
-/

namespace TestCaseGenerator

/-- Errors raised by the pipeline: `FileNotFoundError` (missing raw text, or
opening a file in a missing directory) and `ValueError` (empty normalizer
result). -/
inductive PyError where
  | fileNotFoundError (msg : String)
  | valueError (msg : String)
deriving DecidableEq, Repr

/-- A file path, split into its directory and its filename. -/
abbrev FPath := String × String

/-- Content of one file: the list of chunks written to it. -/
abbrev Content := List String

/-- Look up a file in an association list of files. -/
def getFile : List (FPath × Content) → FPath → Option Content
  | [], _ => none
  | (q, v) :: rest, p => if q = p then some v else getFile rest p

/-- Set the content of a file in an association list of files (replacing the
first entry with that path, or appending a new entry). -/
def setFile : List (FPath × Content) → FPath → Content → List (FPath × Content)
  | [], p, v => [(p, v)]
  | (q, w) :: rest, p, v => if q = p then (p, v) :: rest else (q, w) :: setFile rest p v

/-- The filenames present in directory `d`. -/
def names (fl : List (FPath × Content)) (d : String) : List String :=
  (fl.filter (fun e => e.1.1 == d)).map (fun e => e.1.2)

/-- The filesystem: the set of existing directories and the files. -/
structure FS where
  dirs : List String
  files : List (FPath × Content)
deriving DecidableEq, Repr

/-- Membership of a directory in the directory list (a structural test, so
that symbolic states reduce cheaply). -/
def memb (d : String) : List String → Bool
  | [] => false
  | e :: es => if e = d then true else memb d es

theorem memb_iff (d : String) (l : List String) : memb d l = true ↔ d ∈ l := by
  induction l with
  | nil => simp [memb]
  | cons e es ih =>
    by_cases h : e = d
    · simp [memb, h]
    · simp [memb, h, ih, List.mem_cons]
      intro hd
      exact absurd hd.symm h

/-- `os.makedirs(d, exist_ok=True)`: create directory `d`; no effect (and no
error) when it already exists. -/
def FS.mkdirs (fs : FS) (d : String) : FS :=
  if memb d fs.dirs then fs else { fs with dirs := d :: fs.dirs }

/-- `os.listdir(d)`. -/
def FS.listdir (fs : FS) (d : String) : List String :=
  names fs.files d

/-- `os.path.join`. -/
def joinPath (a b : String) : String := a ++ "/" ++ b

/-- `open(os.path.join(d, n), "w")` followed by writing `content`: fails with
`FileNotFoundError` when the directory does not exist, otherwise replaces the
file's content. -/
def FS.writeFile (fs : FS) (d n content : String) : Except PyError FS :=
  if memb d fs.dirs then
    .ok { fs with files := setFile fs.files (d, n) [content] }
  else
    .error (.fileNotFoundError (joinPath d n))

/-- `open(os.path.join(d, n), "a")` followed by writing one `line`: fails with
`FileNotFoundError` when the directory does not exist, otherwise appends the
line to the file (creating it when absent). -/
def FS.appendFile (fs : FS) (d n line : String) : Except PyError FS :=
  if memb d fs.dirs then
    .ok { fs with
          files := setFile fs.files (d, n)
            (((getFile fs.files (d, n)).getD []) ++ [line]) }
  else
    .error (.fileNotFoundError (joinPath d n))

/-- `BASE_DIR` (machine dependent in the source; an abstract constant here). -/
def BASE_DIR : String := "base"

def INPUT_DIR : String := joinPath BASE_DIR "inputs"

def EXTRACTED_DIR : String := joinPath (joinPath BASE_DIR "extracted") "raw_text"

def REQ_DIR : String := joinPath BASE_DIR "requirements"

def OUTPUT_JSON : String := joinPath (joinPath BASE_DIR "output") "json"

def OUTPUT_EXCEL : String := joinPath (joinPath BASE_DIR "output") "excel"

def AUDIT_DIR : String := joinPath (joinPath BASE_DIR "output") "audit"

/-- The directory of `reject_log.json`, `os.path.join(BASE_DIR, "validation")`. -/
def VALIDATION_DIR : String := joinPath BASE_DIR "validation"

/-- `ensure_dirs()`: create the five pipeline directories. -/
def ensure_dirs (fs : FS) : FS :=
  [EXTRACTED_DIR, REQ_DIR, OUTPUT_JSON, OUTPUT_EXCEL, AUDIT_DIR].foldl FS.mkdirs fs

/-- Lexicographic comparison of character lists by code point, as Python
compares strings: `listLeb a b` is true when `a` precedes `b` or equals it. -/
def listLeb : List Char → List Char → Bool
  | [], _ => true
  | _ :: _, [] => false
  | a :: as, b :: bs =>
    if a.toNat < b.toNat then true
    else if b.toNat < a.toNat then false
    else listLeb as bs

/-- Lexicographic order on strings by code point. -/
def strLeb (a b : String) : Bool := listLeb a.data b.data

/-- One insertion step of insertion sort under `strLeb`. -/
def insertS (x : String) : List String → List String
  | [] => [x]
  | y :: ys => if strLeb x y then x :: y :: ys else y :: insertS x ys

/-- Python's `sorted` on a list of strings, modelled as insertion sort under
the code-point lexicographic order (the order Python uses on `str`). -/
def sortS (l : List String) : List String := l.foldr insertS []

/-- `p` is a prefix of `s`, character by character. -/
def listPrefixb : List Char → List Char → Bool
  | [], _ => true
  | _ :: _, [] => false
  | a :: as, b :: bs => a.toNat == b.toNat && listPrefixb as bs

/-- Python's `str.startswith`: `startsWithb s p` is true when `p` is a prefix
of `s`. -/
def startsWithb (s p : String) : Bool := listPrefixb p.data s.data

/-- The filenames in the extracted-text directory that match the
`RAW_TEXT_` filename convention. -/
def rawMatches (fs : FS) : List String :=
  (fs.listdir EXTRACTED_DIR).filter (fun f => startsWithb f "RAW_TEXT_")

/-- `load_raw_text()`: sort the matching filenames, take the last, read it. -/
def load_raw_text (fs : FS) : Except PyError (String × String) :=
  let files := sortS (rawMatches fs)
  match files.getLast? with
  | none => .error (.fileNotFoundError "No RAW_TEXT file found. Run extraction first.")
  | some latest =>
    match getFile fs.files (EXTRACTED_DIR, latest) with
    | some chunks => .ok (String.join chunks, latest)
    | none => .error (.fileNotFoundError latest)

/-- Model of `json.dump(xs, f, indent=2)` for a list of records, each record
standing for its serialized form: a deterministic serialization. -/
def jsonDump (xs : List String) : String :=
  "[" ++ String.intercalate ", " xs ++ "]"

/-- Model of `pd.DataFrame(xs).to_excel(...)`: a deterministic serialization
of the record list produced by the external spreadsheet library. -/
def excelDump (xs : List String) : String :=
  "xlsx:" ++ String.intercalate "; " xs

/-- The external collaborators, pure functions as the spec's contracts
describe them; every record is represented by its serialized form. -/
structure Collab where
  normalize_requirements : String → List String
  expand_coverage : List String → List String
  generate_testcases : List String → List String
  validate_testcases : List String → List String × List String
  deduplicate : List String → List String

/-- The run state: the filesystem plus the audit messages recorded so far in
this run (a mirror of the lines appended to the day's audit file). -/
structure St where
  fs : FS
  trace : List String
deriving DecidableEq, Repr

/-- The day's audit-log filename. -/
def auditFile (today : String) : String :=
  "generation_trace_" ++ today ++ ".log"

/-- `save_audit_log(message)`: append one line to the day's audit file. -/
def save_audit_log (today : String) (s : St) (message : String) : Except PyError St :=
  (s.fs.appendFile AUDIT_DIR (auditFile today) message).map
    (fun fs => { fs := fs, trace := s.trace ++ [message] })

/-- Open a file for writing inside the run state. -/
def St.write (s : St) (d n content : String) : Except PyError St :=
  (s.fs.writeFile d n content).map (fun fs => { s with fs := fs })

/-- Steps 6-8 of `main()` plus the final audit entry: de-duplicate the valid
test cases, export JSON and Excel, record completion.  Factored out of
`mainRun` because it is reached on both sides of the reject branch. -/
def exportStage (c : Collab) (today : String) (valid_testcases : List String)
    (s : St) : St × Option PyError :=
  let final_testcases := c.deduplicate valid_testcases
  match save_audit_log today s
      ("Final test case count after de-duplication: " ++ toString final_testcases.length) with
  | .error e => (s, some e)
  | .ok s =>
  match St.write s OUTPUT_JSON ("banking_test_cases_" ++ today ++ ".json")
      (jsonDump final_testcases) with
  | .error e => (s, some e)
  | .ok s =>
  match save_audit_log today s
      ("Exported JSON: " ++ joinPath OUTPUT_JSON ("banking_test_cases_" ++ today ++ ".json")) with
  | .error e => (s, some e)
  | .ok s =>
  match St.write s OUTPUT_EXCEL ("banking_test_cases_" ++ today ++ ".xlsx")
      (excelDump final_testcases) with
  | .error e => (s, some e)
  | .ok s =>
  match save_audit_log today s
      ("Exported Excel: " ++ joinPath OUTPUT_EXCEL ("banking_test_cases_" ++ today ++ ".xlsx")) with
  | .error e => (s, some e)
  | .ok s =>
  match save_audit_log today s "Pipeline completed successfully" with
  | .error e => (s, some e)
  | .ok s => (s, none)

/-- `main()`: the stage orchestrator.  `today` is the run's calendar date and
`fs0` the filesystem at invocation; the result is the filesystem and audit
trace when the run ends, plus `none` on success or the raised error. -/
def mainRun (c : Collab) (today : String) (fs0 : FS) : St × Option PyError :=
  let s : St := { fs := ensure_dirs fs0, trace := [] }
  match save_audit_log today s "Pipeline started" with
  | .error e => (s, some e)
  | .ok s =>
  match load_raw_text s.fs with
  | .error e => (s, some e)
  | .ok (raw_text, raw_file) =>
  match save_audit_log today s ("Loaded raw input: " ++ raw_file) with
  | .error e => (s, some e)
  | .ok s =>
  let requirements := c.normalize_requirements raw_text
  if requirements = [] then
    (s, some (.valueError "No testable requirements found"))
  else
  match St.write s REQ_DIR "normalized_requirements.json" (jsonDump requirements) with
  | .error e => (s, some e)
  | .ok s =>
  match save_audit_log today s
      ("Normalized " ++ toString requirements.length ++ " requirements") with
  | .error e => (s, some e)
  | .ok s =>
  let coverage_items := c.expand_coverage requirements
  match save_audit_log today s
      ("Expanded to " ++ toString coverage_items.length ++ " coverage intents") with
  | .error e => (s, some e)
  | .ok s =>
  let generated_testcases := c.generate_testcases coverage_items
  match save_audit_log today s
      ("Generated " ++ toString generated_testcases.length ++ " raw test cases") with
  | .error e => (s, some e)
  | .ok s =>
  let vr := c.validate_testcases generated_testcases
  let valid_testcases := vr.1
  let rejected := vr.2
  if rejected = [] then
    exportStage c today valid_testcases s
  else
  match St.write s VALIDATION_DIR "reject_log.json" (jsonDump rejected) with
  | .error e => (s, some e)
  | .ok s =>
  match save_audit_log today s
      ("Rejected " ++ toString rejected.length ++ " invalid test cases") with
  | .error e => (s, some e)
  | .ok s =>
  exportStage c today valid_testcases s

/-! ### Basic lemmas about the filesystem model -/

theorem getFile_setFile_same (fl : List (FPath × Content)) (p : FPath) (v : Content) :
    getFile (setFile fl p v) p = some v := by
  induction fl with
  | nil => simp [setFile, getFile]
  | cons e rest ih =>
    by_cases h : e.1 = p
    · simp [setFile, getFile, h]
    · simp [setFile, getFile, h, ih]

theorem getFile_setFile_ne (fl : List (FPath × Content)) (p q : FPath) (v : Content)
    (h : q ≠ p) : getFile (setFile fl p v) q = getFile fl q := by
  induction fl with
  | nil => simp [setFile, getFile, Ne.symm h]
  | cons e rest ih =>
    rcases e with ⟨ep, ev⟩
    by_cases he : ep = p
    · subst he
      simp [setFile, getFile, Ne.symm h]
    · simp [setFile, getFile, he, ih]

theorem names_cons (e : FPath × Content) (fl : List (FPath × Content)) (d : String) :
    names (e :: fl) d =
      if e.1.1 = d then e.1.2 :: names fl d else names fl d := by
  simp only [names, List.filter_cons]
  by_cases hb : e.1.1 = d
  · simp [hb]
  · simp [hb]

theorem names_setFile_ne (fl : List (FPath × Content)) (p : FPath) (v : Content)
    (d : String) (h : p.1 ≠ d) : names (setFile fl p v) d = names fl d := by
  induction fl with
  | nil => simp [setFile, names, h]
  | cons e rest ih =>
    rcases e with ⟨ep, ev⟩
    by_cases he : ep = p
    · subst he
      have h1 : ep.1 ≠ d := h
      simp [setFile, names_cons, h1]
    · simp [setFile, he, names_cons, ih]

theorem mkdirs_files (fs : FS) (d : String) : (FS.mkdirs fs d).files = fs.files := by
  unfold FS.mkdirs
  split <;> rfl

theorem mem_mkdirs (fs : FS) (d d' : String) :
    d' ∈ (FS.mkdirs fs d).dirs ↔ d' = d ∨ d' ∈ fs.dirs := by
  unfold FS.mkdirs
  by_cases h : d ∈ fs.dirs
  · rw [if_pos ((memb_iff d fs.dirs).mpr h)]
    constructor
    · exact Or.inr
    · rintro (rfl | hm)
      · exact h
      · exact hm
  · have hb : memb d fs.dirs = false := by
      cases hm : memb d fs.dirs
      · rfl
      · exact absurd ((memb_iff d fs.dirs).mp hm) h
    rw [hb]
    simp [List.mem_cons]

theorem ensure_dirs_files (fs : FS) : (ensure_dirs fs).files = fs.files := by
  simp [ensure_dirs, List.foldl, mkdirs_files]

theorem mem_ensure_dirs (fs : FS) (d : String) :
    d ∈ (ensure_dirs fs).dirs ↔
      (d = EXTRACTED_DIR ∨ d = REQ_DIR ∨ d = OUTPUT_JSON ∨ d = OUTPUT_EXCEL ∨ d = AUDIT_DIR)
      ∨ d ∈ fs.dirs := by
  simp only [ensure_dirs, List.foldl, mem_mkdirs]
  tauto

/-! ### State-transformer form of the successful steps -/

/-- The state after a successful `save_audit_log`. -/
def auditAppend (today : String) (s : St) (m : String) : St :=
  { fs := { dirs := s.fs.dirs,
            files := setFile s.fs.files (AUDIT_DIR, auditFile today)
              (((getFile s.fs.files (AUDIT_DIR, auditFile today)).getD []) ++ [m]) },
    trace := s.trace ++ [m] }

/-- The state after a successful write of one file. -/
def stSet (s : St) (d n v : String) : St :=
  { fs := { dirs := s.fs.dirs, files := setFile s.fs.files (d, n) [v] },
    trace := s.trace }

theorem save_audit_log_ok (today : String) (s : St) (m : String)
    (h : AUDIT_DIR ∈ s.fs.dirs) :
    save_audit_log today s m = .ok (auditAppend today s m) := by
  have hb : memb AUDIT_DIR s.fs.dirs = true := (memb_iff _ _).mpr h
  simp [save_audit_log, FS.appendFile, hb, auditAppend, Except.map]

theorem St.write_ok (s : St) (d n v : String) (h : d ∈ s.fs.dirs) :
    St.write s d n v = .ok (stSet s d n v) := by
  have hb : memb d s.fs.dirs = true := (memb_iff _ _).mpr h
  simp [St.write, FS.writeFile, hb, stSet, Except.map]

theorem St.write_err (s : St) (d n v : String) (h : d ∉ s.fs.dirs) :
    St.write s d n v = .error (.fileNotFoundError (joinPath d n)) := by
  have hb : memb d s.fs.dirs = false := by
    cases hm : memb d s.fs.dirs
    · rfl
    · exact absurd ((memb_iff _ _).mp hm) h
  simp [St.write, FS.writeFile, hb, Except.map]

@[simp] theorem auditAppend_dirs (today : String) (s : St) (m : String) :
    (auditAppend today s m).fs.dirs = s.fs.dirs := rfl

@[simp] theorem stSet_dirs (s : St) (d n v : String) :
    (stSet s d n v).fs.dirs = s.fs.dirs := rfl

@[simp] theorem auditAppend_trace (today : String) (s : St) (m : String) :
    (auditAppend today s m).trace = s.trace ++ [m] := rfl

@[simp] theorem stSet_trace (s : St) (d n v : String) :
    (stSet s d n v).trace = s.trace := rfl

theorem load_raw_text_setFile (fs : FS) (dirs' : List String) (p : FPath) (v : Content)
    (h : p.1 ≠ EXTRACTED_DIR) :
    load_raw_text ⟨dirs', setFile fs.files p v⟩ = load_raw_text fs := by
  have hm : rawMatches ⟨dirs', setFile fs.files p v⟩ = rawMatches fs := by
    simp [rawMatches, FS.listdir, names_setFile_ne _ _ _ _ h]
  simp only [load_raw_text, hm]
  cases hd : (sortS (rawMatches fs)).getLast? with
  | none => rfl
  | some latest =>
    have hg : getFile (setFile fs.files p v) (EXTRACTED_DIR, latest) =
        getFile fs.files (EXTRACTED_DIR, latest) := by
      apply getFile_setFile_ne
      intro hq
      exact absurd (congrArg Prod.fst hq).symm h
    simp only [hg]

theorem load_raw_text_auditAppend (today : String) (s : St) (m : String) :
    load_raw_text (auditAppend today s m).fs = load_raw_text s.fs := by
  have hne : AUDIT_DIR ≠ EXTRACTED_DIR := by decide
  exact load_raw_text_setFile s.fs s.fs.dirs (AUDIT_DIR, auditFile today)
    (((getFile s.fs.files (AUDIT_DIR, auditFile today)).getD []) ++ [m]) hne

theorem validation_mem_ensure (fs : FS) :
    VALIDATION_DIR ∈ (ensure_dirs fs).dirs ↔ VALIDATION_DIR ∈ fs.dirs := by
  rw [mem_ensure_dirs]
  have h1 : VALIDATION_DIR ≠ EXTRACTED_DIR := by decide
  have h2 : VALIDATION_DIR ≠ REQ_DIR := by decide
  have h3 : VALIDATION_DIR ≠ OUTPUT_JSON := by decide
  have h4 : VALIDATION_DIR ≠ OUTPUT_EXCEL := by decide
  have h5 : VALIDATION_DIR ≠ AUDIT_DIR := by decide
  simp [h1, h2, h3, h4, h5]

/-! ### The resolved form of the orchestrator -/

/-- The state after the export stage, in resolved (always-succeeding) form:
every directory it writes into was created by `ensure_dirs`. -/
def exportSpec (c : Collab) (today : String) (valid : List String) (s : St) : St :=
  let final := c.deduplicate valid
  let s := auditAppend today s
    ("Final test case count after de-duplication: " ++ toString final.length)
  let s := stSet s OUTPUT_JSON ("banking_test_cases_" ++ today ++ ".json") (jsonDump final)
  let s := auditAppend today s
    ("Exported JSON: " ++ joinPath OUTPUT_JSON ("banking_test_cases_" ++ today ++ ".json"))
  let s := stSet s OUTPUT_EXCEL ("banking_test_cases_" ++ today ++ ".xlsx") (excelDump final)
  let s := auditAppend today s
    ("Exported Excel: " ++ joinPath OUTPUT_EXCEL ("banking_test_cases_" ++ today ++ ".xlsx"))
  auditAppend today s "Pipeline completed successfully"

/-- `mainRun` with every fallible filesystem step resolved: the audit,
requirements and output directories always exist after `ensure_dirs`, so the
only remaining failure points are the missing raw text, the empty normalizer
result, and the reject-log write into the never-created validation
directory. -/
def mainSpec (c : Collab) (today : String) (fs0 : FS) : St × Option PyError :=
  let s := auditAppend today ⟨ensure_dirs fs0, []⟩ "Pipeline started"
  match load_raw_text s.fs with
  | .error e => (s, some e)
  | .ok (raw_text, raw_file) =>
    let s := auditAppend today s ("Loaded raw input: " ++ raw_file)
    let requirements := c.normalize_requirements raw_text
    if requirements = [] then (s, some (.valueError "No testable requirements found"))
    else
      let s := stSet s REQ_DIR "normalized_requirements.json" (jsonDump requirements)
      let s := auditAppend today s
        ("Normalized " ++ toString requirements.length ++ " requirements")
      let coverage_items := c.expand_coverage requirements
      let s := auditAppend today s
        ("Expanded to " ++ toString coverage_items.length ++ " coverage intents")
      let generated := c.generate_testcases coverage_items
      let s := auditAppend today s
        ("Generated " ++ toString generated.length ++ " raw test cases")
      let vr := c.validate_testcases generated
      if vr.2 = [] then (exportSpec c today vr.1 s, none)
      else if VALIDATION_DIR ∈ fs0.dirs then
        let s := stSet s VALIDATION_DIR "reject_log.json" (jsonDump vr.2)
        let s := auditAppend today s
          ("Rejected " ++ toString vr.2.length ++ " invalid test cases")
        (exportSpec c today vr.1 s, none)
      else (s, some (.fileNotFoundError (joinPath VALIDATION_DIR "reject_log.json")))

theorem exportStage_ok (c : Collab) (today : String) (valid : List String) (s : St)
    (hA : AUDIT_DIR ∈ s.fs.dirs) (hJ : OUTPUT_JSON ∈ s.fs.dirs)
    (hX : OUTPUT_EXCEL ∈ s.fs.dirs) :
    exportStage c today valid s = (exportSpec c today valid s, none) := by
  simp only [exportStage, exportSpec, save_audit_log_ok, St.write_ok,
    auditAppend_dirs, stSet_dirs, hA, hJ, hX]

set_option maxHeartbeats 1000000 in
/-- `mainRun` agrees with its resolved form. -/
theorem mainRun_eq_spec (c : Collab) (today : String) (fs0 : FS) :
    mainRun c today fs0 = mainSpec c today fs0 := by
  have hVi : VALIDATION_DIR ∈ (ensure_dirs fs0).dirs ↔ VALIDATION_DIR ∈ fs0.dirs :=
    validation_mem_ensure fs0
  have hA : AUDIT_DIR ∈ (ensure_dirs fs0).dirs := by
    rw [mem_ensure_dirs]
    exact Or.inl (Or.inr (Or.inr (Or.inr (Or.inr rfl))))
  have hR : REQ_DIR ∈ (ensure_dirs fs0).dirs := by
    rw [mem_ensure_dirs]
    exact Or.inl (Or.inr (Or.inl rfl))
  have hJ : OUTPUT_JSON ∈ (ensure_dirs fs0).dirs := by
    rw [mem_ensure_dirs]
    exact Or.inl (Or.inr (Or.inr (Or.inl rfl)))
  have hX : OUTPUT_EXCEL ∈ (ensure_dirs fs0).dirs := by
    rw [mem_ensure_dirs]
    exact Or.inl (Or.inr (Or.inr (Or.inr (Or.inl rfl))))
  unfold mainRun mainSpec
  generalize hG : ensure_dirs fs0 = fs1 at hVi hA hR hJ hX ⊢
  simp only [save_audit_log_ok, St.write_ok, exportStage_ok,
    auditAppend_dirs, stSet_dirs, hA, hR, hJ, hX]
  cases hload : load_raw_text (auditAppend today ⟨fs1, []⟩ "Pipeline started").fs with
  | error e => rfl
  | ok pr =>
    rcases pr with ⟨raw_text, raw_file⟩
    by_cases hreq : c.normalize_requirements raw_text = []
    · simp only [hreq, ite_true, if_pos]
    · simp only [hreq, if_neg hreq, ite_false]
      by_cases hrej : (c.validate_testcases (c.generate_testcases
          (c.expand_coverage (c.normalize_requirements raw_text)))).2 = []
      · simp only [hrej, ite_true, if_pos]
      · simp only [hrej, ite_false]
        by_cases hV : VALIDATION_DIR ∈ fs0.dirs
        · have hV1 : VALIDATION_DIR ∈ fs1.dirs := hVi.mpr hV
          simp only [St.write_ok, hV1, hV, ite_true,
            save_audit_log_ok, auditAppend_dirs, stSet_dirs, hA,
            exportStage_ok, hJ, hX]
        · have hV1 : VALIDATION_DIR ∉ fs1.dirs := fun hm => hV (hVi.mp hm)
          simp only [St.write_err, hV1, hV, ite_false, auditAppend_dirs, stSet_dirs,
            not_false_eq_true]

/-! ### The lexicographic order used by the input selection -/

theorem listLeb_iff : ∀ as bs : List Char, listLeb as bs = true ↔ ¬ List.lt bs as
  | [], bs => by
    simp only [listLeb, true_iff]
    intro h
    cases h
  | _ :: _, [] => by
    simp only [listLeb, Bool.false_eq_true, false_iff, not_not]
    exact List.lt.nil _ _
  | a :: as, b :: bs => by
    by_cases h1 : a.toNat < b.toNat
    · simp only [listLeb, if_pos h1, true_iff]
      intro h
      cases h with
      | head _ _ hba => exact Nat.lt_asymm h1 hba
      | tail h₁ h₂ _ => exact h₂ h1
    · by_cases h2 : b.toNat < a.toNat
      · simp only [listLeb, if_neg h1, if_pos h2, Bool.false_eq_true, false_iff, not_not]
        exact List.lt.head _ _ h2
      · simp only [listLeb, if_neg h1, if_neg h2]
        rw [listLeb_iff as bs]
        apply not_congr
        constructor
        · intro h
          exact List.lt.tail h2 h1 h
        · intro h
          cases h with
          | head _ _ hba => exact absurd hba h2
          | tail _ _ h₃ => exact h₃

theorem strLeb_iff (a b : String) : strLeb a b = true ↔ a ≤ b := by
  have hlt : (b < a) ↔ List.lt b.data a.data := by
    rw [String.lt_iff_toList_lt]
    exact (List.lt_iff_lex_lt b.data a.data).symm
  calc strLeb a b = true ↔ ¬ List.lt b.data a.data := listLeb_iff a.data b.data
    _ ↔ ¬ b < a := (not_congr hlt).symm
    _ ↔ a ≤ b := Iff.rfl

theorem strLeb_refl (a : String) : strLeb a a = true :=
  (strLeb_iff a a).mpr le_rfl

theorem strLeb_total (a b : String) : strLeb a b = true ∨ strLeb b a = true := by
  rcases le_total a b with h | h
  · exact Or.inl ((strLeb_iff a b).mpr h)
  · exact Or.inr ((strLeb_iff b a).mpr h)

theorem strLeb_trans {a b c : String} (h1 : strLeb a b = true)
    (h2 : strLeb b c = true) : strLeb a c = true :=
  (strLeb_iff a c).mpr (le_trans ((strLeb_iff a b).mp h1) ((strLeb_iff b c).mp h2))

/-! ### Sorting lemmas -/

theorem insertS_perm (x : String) (l : List String) : List.Perm (insertS x l) (x :: l) := by
  induction l with
  | nil => rfl
  | cons y ys ih =>
    unfold insertS
    by_cases h : strLeb x y = true
    · rw [if_pos h]
    · rw [if_neg h]
      exact (ih.cons y).trans (List.Perm.swap x y ys)

theorem mem_insertS {a x : String} {l : List String} :
    a ∈ insertS x l ↔ a = x ∨ a ∈ l := by
  rw [(insertS_perm x l).mem_iff, List.mem_cons]

theorem insertS_pairwise (x : String) (l : List String)
    (h : l.Pairwise (fun a b => strLeb a b = true)) :
    (insertS x l).Pairwise (fun a b => strLeb a b = true) := by
  induction l with
  | nil => simp [insertS]
  | cons y ys ih =>
    rcases List.pairwise_cons.mp h with ⟨hy, hys⟩
    unfold insertS
    by_cases hxy : strLeb x y = true
    · rw [if_pos hxy]
      refine List.Pairwise.cons ?_ h
      intro z hz
      rcases List.mem_cons.mp hz with rfl | hz'
      · exact hxy
      · exact strLeb_trans hxy (hy z hz')
    · rw [if_neg hxy]
      refine List.Pairwise.cons ?_ (ih hys)
      intro z hz
      rcases mem_insertS.mp hz with rfl | hz'
      · rcases strLeb_total y z with h' | h'
        · exact h'
        · exact absurd h' hxy
      · exact hy z hz'

theorem sortS_perm (l : List String) : List.Perm (sortS l) l := by
  induction l with
  | nil => rfl
  | cons x xs ih => exact (insertS_perm x (sortS xs)).trans (ih.cons x)

theorem sortS_pairwise (l : List String) :
    (sortS l).Pairwise (fun a b => strLeb a b = true) := by
  induction l with
  | nil => simp [sortS]
  | cons x xs ih => exact insertS_pairwise x (sortS xs) ih

theorem sortS_eq_nil_iff {l : List String} : sortS l = [] ↔ l = [] := by
  constructor
  · intro h
    have hlen := (sortS_perm l).length_eq
    rw [h] at hlen
    exact List.eq_nil_of_length_eq_zero hlen.symm
  · intro h
    rw [h]
    rfl

theorem pairwise_le_getLast : ∀ {l : List String},
    l.Pairwise (fun a b => strLeb a b = true) →
    ∀ {a b : String}, a ∈ l → l.getLast? = some b → strLeb a b = true
  | [], _, _, _, ha, _ => absurd ha (List.not_mem_nil _)
  | [x], hp, a, b, ha, hb => by
    have ha' : a = x := by simpa using ha
    have hb' : x = b := by simpa using hb
    rw [ha', ← hb']
    exact strLeb_refl x
  | x :: y :: ys, hp, a, b, ha, hb => by
    rcases List.pairwise_cons.mp hp with ⟨hx, hys⟩
    rw [List.getLast?_cons_cons] at hb
    rcases List.mem_cons.mp ha with rfl | ha'
    · exact hx b (List.mem_of_getLast?_eq_some hb)
    · exact pairwise_le_getLast hys ha' hb


/-! ### The input-selection specification (C2) -/

theorem getFile_isSome_of_mem_names : ∀ {fl : List (FPath × Content)} {d a : String},
    a ∈ names fl d → (getFile fl (d, a)).isSome
  | [], d, a, h => by simp [names] at h
  | e :: rest, d, a, h => by
    rw [names_cons] at h
    by_cases hk : e.1 = (d, a)
    · simp [getFile, hk]
    · have h' : a ∈ names rest d := by
        by_cases hd : e.1.1 = d
        · rw [if_pos hd] at h
          rcases List.mem_cons.mp h with rfl | h2
          · exact absurd (show e.1 = (d, e.1.2) by rw [← hd]) hk
          · exact h2
        · rwa [if_neg hd] at h
      simpa [getFile, hk] using getFile_isSome_of_mem_names h'

/-- C2: `load_raw_text` fails with `NotFoundError` iff no filename in the
extracted-text directory matches the `RAW_TEXT_` prefix; when at least one
matches it returns the stored content and the name of the lexicographically
last matching filename. -/
theorem load_raw_text_spec (fs : FS) :
    (rawMatches fs = [] →
      load_raw_text fs =
        .error (.fileNotFoundError "No RAW_TEXT file found. Run extraction first.")) ∧
    (rawMatches fs ≠ [] →
      ∃ latest chunks,
        load_raw_text fs = .ok (String.join chunks, latest) ∧
        latest ∈ rawMatches fs ∧
        (∀ f ∈ rawMatches fs, f ≤ latest) ∧
        getFile fs.files (EXTRACTED_DIR, latest) = some chunks) := by
  constructor
  · intro h
    simp [load_raw_text, h, sortS]
  · intro h
    have hs : sortS (rawMatches fs) ≠ [] := fun hh => h (sortS_eq_nil_iff.mp hh)
    obtain ⟨latest, hlast⟩ : ∃ latest, (sortS (rawMatches fs)).getLast? = some latest := by
      cases hl : (sortS (rawMatches fs)).getLast? with
      | none => exact absurd (List.getLast?_eq_none_iff.mp hl) hs
      | some x => exact ⟨x, rfl⟩
    have hmem : latest ∈ rawMatches fs :=
      (sortS_perm _).mem_iff.mp (List.mem_of_getLast?_eq_some hlast)
    have hnames : latest ∈ names fs.files EXTRACTED_DIR :=
      List.mem_of_mem_filter hmem
    obtain ⟨chunks, hchunks⟩ : ∃ chunks,
        getFile fs.files (EXTRACTED_DIR, latest) = some chunks := by
      cases hg : getFile fs.files (EXTRACTED_DIR, latest) with
      | none =>
        have := getFile_isSome_of_mem_names hnames
        rw [hg] at this
        cases this
      | some v => exact ⟨v, rfl⟩
    refine ⟨latest, chunks, ?_, hmem, ?_, hchunks⟩
    · simp only [load_raw_text, hlast, hchunks]
    · intro f hf
      have hf' : f ∈ sortS (rawMatches fs) := (sortS_perm _).mem_iff.mpr hf
      exact (strLeb_iff f latest).mp (pairwise_le_getLast (sortS_pairwise _) hf' hlast)

/-- A concrete filesystem with two matching raw-text files and one
non-matching file. -/
def fsC2 : FS :=
  ⟨[], [((EXTRACTED_DIR, "notes.txt"), ["x"]),
        ((EXTRACTED_DIR, "RAW_TEXT_2025-01-01"), ["first "]),
        ((EXTRACTED_DIR, "RAW_TEXT_2025-01-02"), ["second"])]⟩

/-- Witness for `load_raw_text_spec` at concrete inputs: the empty filesystem
fails with the not-found error, and `fsC2` selects `RAW_TEXT_2025-01-02`. -/
theorem load_raw_text_spec_witness :
    (load_raw_text (FS.mk [] []) =
      .error (.fileNotFoundError "No RAW_TEXT file found. Run extraction first.")) ∧
    (∃ latest chunks,
        load_raw_text fsC2 = .ok (String.join chunks, latest) ∧
        latest ∈ rawMatches fsC2 ∧
        (∀ f ∈ rawMatches fsC2, f ≤ latest) ∧
        getFile fsC2.files (EXTRACTED_DIR, latest) = some chunks) :=
  ⟨(load_raw_text_spec (FS.mk [] [])).1 rfl,
   (load_raw_text_spec fsC2).2 (by decide)⟩


/-! ### Dataflow of one run and the success characterization -/

/-- The raw test cases generated from raw text `t`. -/
def rawCases (c : Collab) (t : String) : List String :=
  c.generate_testcases (c.expand_coverage (c.normalize_requirements t))

/-- The valid subset returned by the validator. -/
def validOf (c : Collab) (t : String) : List String :=
  (c.validate_testcases (rawCases c t)).1

/-- The rejected subset returned by the validator. -/
def rejectedOf (c : Collab) (t : String) : List String :=
  (c.validate_testcases (rawCases c t)).2

/-- The final de-duplicated test-case set. -/
def finalOf (c : Collab) (t : String) : List String :=
  c.deduplicate (validOf c t)

/-- The run state just after the "Generated ..." audit entry, for a run that
loaded `raw_file` with content `raw_text` and passed the requirements
check. -/
def preState (c : Collab) (today : String) (fs0 : FS) (raw_text raw_file : String) : St :=
  let s := auditAppend today ⟨ensure_dirs fs0, []⟩ "Pipeline started"
  let s := auditAppend today s ("Loaded raw input: " ++ raw_file)
  let s := stSet s REQ_DIR "normalized_requirements.json"
    (jsonDump (c.normalize_requirements raw_text))
  let s := auditAppend today s
    ("Normalized " ++ toString (c.normalize_requirements raw_text).length ++ " requirements")
  let s := auditAppend today s
    ("Expanded to " ++ toString (c.expand_coverage (c.normalize_requirements raw_text)).length
      ++ " coverage intents")
  auditAppend today s
    ("Generated " ++ toString (rawCases c raw_text).length ++ " raw test cases")

/-- The run state after the (possibly skipped) reject-log step. -/
def rejState (c : Collab) (today : String) (fs0 : FS) (raw_text raw_file : String) : St :=
  if rejectedOf c raw_text = [] then preState c today fs0 raw_text raw_file
  else
    auditAppend today
      (stSet (preState c today fs0 raw_text raw_file) VALIDATION_DIR "reject_log.json"
        (jsonDump (rejectedOf c raw_text)))
      ("Rejected " ++ toString (rejectedOf c raw_text).length ++ " invalid test cases")

/-- The run state at the end of a successful run. -/
def finalState (c : Collab) (today : String) (fs0 : FS) (raw_text raw_file : String) : St :=
  exportSpec c today (validOf c raw_text) (rejState c today fs0 raw_text raw_file)

/-- Forward characterization: when raw text loads, the normalizer returns at
least one requirement, and the reject-log write cannot fail, the run succeeds
and ends in `finalState`. -/
theorem mainRun_success (c : Collab) (today : String) (fs0 : FS)
    (raw_text raw_file : String)
    (hload : load_raw_text (ensure_dirs fs0) = .ok (raw_text, raw_file))
    (hreq : c.normalize_requirements raw_text ≠ [])
    (hrejdir : rejectedOf c raw_text = [] ∨ VALIDATION_DIR ∈ fs0.dirs) :
    mainRun c today fs0 = (finalState c today fs0 raw_text raw_file, none) := by
  have hload' : load_raw_text
      (auditAppend today ⟨ensure_dirs fs0, []⟩ "Pipeline started").fs
      = .ok (raw_text, raw_file) := by
    rw [load_raw_text_auditAppend]
    exact hload
  rw [mainRun_eq_spec]
  by_cases hrej : rejectedOf c raw_text = []
  · have hrej' : (c.validate_testcases (c.generate_testcases (c.expand_coverage
        (c.normalize_requirements raw_text)))).2 = [] := by
      simpa [rejectedOf, rawCases] using hrej
    simp only [mainSpec, hload', if_neg hreq, hrej', ite_true,
      finalState, rejState, if_pos hrej, preState, validOf, rawCases, rejectedOf]
  · have hV : VALIDATION_DIR ∈ fs0.dirs := by
      rcases hrejdir with h | h
      · exact absurd h hrej
      · exact h
    have hrej' : ¬ (c.validate_testcases (c.generate_testcases (c.expand_coverage
        (c.normalize_requirements raw_text)))).2 = [] := by
      simpa [rejectedOf, rawCases] using hrej
    simp only [mainSpec, hload', if_neg hreq, if_neg hrej', hV, ite_true,
      finalState, rejState, if_neg hrej, preState, validOf, rawCases, rejectedOf]

/-- Inversion: a run that reported success loaded some raw text, obtained a
non-empty requirement list, could write the reject log if it had to, and
ended in `finalState`. -/
theorem mainRun_none_inv (c : Collab) (today : String) (fs0 : FS) (s : St)
    (h : mainRun c today fs0 = (s, none)) :
    ∃ raw_text raw_file,
      load_raw_text (ensure_dirs fs0) = .ok (raw_text, raw_file) ∧
      c.normalize_requirements raw_text ≠ [] ∧
      (rejectedOf c raw_text = [] ∨ VALIDATION_DIR ∈ fs0.dirs) ∧
      s = finalState c today fs0 raw_text raw_file := by
  rw [mainRun_eq_spec] at h
  unfold mainSpec at h
  unfold finalState rejState preState
  generalize hG : ensure_dirs fs0 = fs1 at h ⊢
  simp only [] at h
  cases hload : load_raw_text (auditAppend today ⟨fs1, []⟩ "Pipeline started").fs with
  | error e =>
    rw [hload] at h
    exact absurd (congrArg Prod.snd h) (by simp)
  | ok pr =>
    rcases pr with ⟨raw_text, raw_file⟩
    rw [hload] at h
    have hload1 : load_raw_text fs1 = .ok (raw_text, raw_file) := by
      rw [← load_raw_text_auditAppend today ⟨fs1, []⟩ "Pipeline started"]
      exact hload
    by_cases hreq : c.normalize_requirements raw_text = []
    · simp only [if_pos hreq] at h
      exact absurd (congrArg Prod.snd h) (by simp)
    · simp only [if_neg hreq] at h
      by_cases hrej : rejectedOf c raw_text = []
      · have hrej' : (c.validate_testcases (c.generate_testcases (c.expand_coverage
            (c.normalize_requirements raw_text)))).2 = [] := by
          simpa [rejectedOf, rawCases] using hrej
        simp only [hrej', ite_true] at h
        refine ⟨raw_text, raw_file, hload1, hreq, Or.inl hrej, ?_⟩
        have hs := congrArg Prod.fst h
        simp only at hs
        rw [← hs]
        simp only [rejectedOf, rawCases, validOf]
        simp only [if_pos hrej']
      · have hrej' : ¬ (c.validate_testcases (c.generate_testcases (c.expand_coverage
            (c.normalize_requirements raw_text)))).2 = [] := by
          simpa [rejectedOf, rawCases] using hrej
        by_cases hV : VALIDATION_DIR ∈ fs0.dirs
        · simp only [if_neg hrej', hV, ite_true, ite_false] at h
          refine ⟨raw_text, raw_file, hload1, hreq, Or.inr hV, ?_⟩
          have hs := congrArg Prod.fst h
          simp only at hs
          rw [← hs]
          simp only [rejectedOf, rawCases, validOf]
          simp only [if_neg hrej']
        · simp only [if_neg hrej', hV, ite_false] at h
          exact absurd (congrArg Prod.snd h) (by simp)


/-! ### Reading the final state -/

theorem fpath_ne_of_dir_ne {d1 d2 : String} (n1 n2 : String) (h : d1 ≠ d2) :
    (⟨d1, n1⟩ : FPath) ≠ (d2, n2) :=
  fun hq => h (congrArg Prod.fst hq)

theorem getFile_auditAppend_ne (today : String) (s : St) (m : String) (p : FPath)
    (h : p ≠ (AUDIT_DIR, auditFile today)) :
    getFile (auditAppend today s m).fs.files p = getFile s.fs.files p :=
  getFile_setFile_ne _ _ _ _ h

theorem getFile_stSet_ne (s : St) (d n v : String) (p : FPath) (h : p ≠ (d, n)) :
    getFile (stSet s d n v).fs.files p = getFile s.fs.files p :=
  getFile_setFile_ne _ _ _ _ h

theorem getFile_stSet_same (s : St) (d n v : String) :
    getFile (stSet s d n v).fs.files (d, n) = some [v] :=
  getFile_setFile_same _ _ _

theorem getFile_auditAppend_same (today : String) (s : St) (m : String) :
    getFile (auditAppend today s m).fs.files (AUDIT_DIR, auditFile today) =
      some (((getFile s.fs.files (AUDIT_DIR, auditFile today)).getD []) ++ [m]) :=
  getFile_setFile_same _ _ _

/-- Reading any path other than the audit file and the two export files is
unchanged by the export stage. -/
theorem exportSpec_getFile_other (c : Collab) (today : String) (valid : List String)
    (s : St) (p : FPath) (hA : p ≠ (AUDIT_DIR, auditFile today))
    (hJ : p.1 ≠ OUTPUT_JSON) (hX : p.1 ≠ OUTPUT_EXCEL) :
    getFile (exportSpec c today valid s).fs.files p = getFile s.fs.files p := by
  have h2 : p ≠ (OUTPUT_EXCEL, "banking_test_cases_" ++ today ++ ".xlsx") :=
    fun hq => hX (congrArg Prod.fst hq)
  have h3 : p ≠ (OUTPUT_JSON, "banking_test_cases_" ++ today ++ ".json") :=
    fun hq => hJ (congrArg Prod.fst hq)
  simp only [exportSpec]
  simp only [getFile_auditAppend_ne, getFile_stSet_ne, hA, h2, h3, ne_eq,
    not_false_eq_true]

theorem exportSpec_getFile_json (c : Collab) (today : String) (valid : List String)
    (s : St) :
    getFile (exportSpec c today valid s).fs.files
      (OUTPUT_JSON, "banking_test_cases_" ++ today ++ ".json") =
      some [jsonDump (c.deduplicate valid)] := by
  have h1 : (⟨OUTPUT_JSON, "banking_test_cases_" ++ today ++ ".json"⟩ : FPath) ≠
      (AUDIT_DIR, auditFile today) := fpath_ne_of_dir_ne _ _ (by decide)
  have h2 : (⟨OUTPUT_JSON, "banking_test_cases_" ++ today ++ ".json"⟩ : FPath) ≠
      (OUTPUT_EXCEL, "banking_test_cases_" ++ today ++ ".xlsx") :=
    fpath_ne_of_dir_ne _ _ (by decide)
  simp only [exportSpec]
  simp only [getFile_auditAppend_ne, getFile_stSet_ne, getFile_stSet_same,
    h1, h2, ne_eq, not_false_eq_true]

theorem exportSpec_getFile_excel (c : Collab) (today : String) (valid : List String)
    (s : St) :
    getFile (exportSpec c today valid s).fs.files
      (OUTPUT_EXCEL, "banking_test_cases_" ++ today ++ ".xlsx") =
      some [excelDump (c.deduplicate valid)] := by
  have h1 : (⟨OUTPUT_EXCEL, "banking_test_cases_" ++ today ++ ".xlsx"⟩ : FPath) ≠
      (AUDIT_DIR, auditFile today) := fpath_ne_of_dir_ne _ _ (by decide)
  simp only [exportSpec]
  simp only [getFile_auditAppend_ne, getFile_stSet_same, h1, ne_eq,
    not_false_eq_true]

theorem exportSpec_dirs (c : Collab) (today : String) (valid : List String) (s : St) :
    (exportSpec c today valid s).fs.dirs = s.fs.dirs := rfl

theorem exportSpec_trace (c : Collab) (today : String) (valid : List String) (s : St) :
    (exportSpec c today valid s).trace = s.trace ++
      ["Final test case count after de-duplication: " ++
          toString (c.deduplicate valid).length,
        "Exported JSON: " ++ joinPath OUTPUT_JSON ("banking_test_cases_" ++ today ++ ".json"),
        "Exported Excel: " ++ joinPath OUTPUT_EXCEL ("banking_test_cases_" ++ today ++ ".xlsx"),
        "Pipeline completed successfully"] := by
  simp only [exportSpec, auditAppend_trace, stSet_trace, List.append_assoc]
  rfl

theorem preState_dirs (c : Collab) (today : String) (fs0 : FS) (t f : String) :
    (preState c today fs0 t f).fs.dirs = (ensure_dirs fs0).dirs := by
  simp only [preState, auditAppend_dirs, stSet_dirs]

theorem rejState_dirs (c : Collab) (today : String) (fs0 : FS) (t f : String) :
    (rejState c today fs0 t f).fs.dirs = (ensure_dirs fs0).dirs := by
  unfold rejState
  split
  · exact preState_dirs c today fs0 t f
  · simp only [auditAppend_dirs, stSet_dirs]
    exact preState_dirs c today fs0 t f

theorem finalState_dirs (c : Collab) (today : String) (fs0 : FS) (t f : String) :
    (finalState c today fs0 t f).fs.dirs = (ensure_dirs fs0).dirs := by
  rw [finalState, exportSpec_dirs, rejState_dirs]

theorem preState_trace (c : Collab) (today : String) (fs0 : FS) (t f : String) :
    (preState c today fs0 t f).trace =
      ["Pipeline started", "Loaded raw input: " ++ f,
        "Normalized " ++ toString (c.normalize_requirements t).length ++ " requirements",
        "Expanded to " ++ toString (c.expand_coverage (c.normalize_requirements t)).length
          ++ " coverage intents",
        "Generated " ++ toString (rawCases c t).length ++ " raw test cases"] := by
  simp only [preState, auditAppend_trace, stSet_trace]
  rfl

theorem rejState_trace (c : Collab) (today : String) (fs0 : FS) (t f : String) :
    (rejState c today fs0 t f).trace =
      (preState c today fs0 t f).trace ++
        (if rejectedOf c t = [] then []
         else ["Rejected " ++ toString (rejectedOf c t).length ++ " invalid test cases"]) := by
  unfold rejState
  by_cases h : rejectedOf c t = []
  · simp [h]
  · simp [h]

/-- The audit trace of a completed run. -/
theorem finalState_trace (c : Collab) (today : String) (fs0 : FS) (t f : String) :
    (finalState c today fs0 t f).trace =
      ["Pipeline started", "Loaded raw input: " ++ f,
        "Normalized " ++ toString (c.normalize_requirements t).length ++ " requirements",
        "Expanded to " ++ toString (c.expand_coverage (c.normalize_requirements t)).length
          ++ " coverage intents",
        "Generated " ++ toString (rawCases c t).length ++ " raw test cases"] ++
      (if rejectedOf c t = [] then []
       else ["Rejected " ++ toString (rejectedOf c t).length ++ " invalid test cases"]) ++
      ["Final test case count after de-duplication: " ++ toString (finalOf c t).length,
        "Exported JSON: " ++ joinPath OUTPUT_JSON ("banking_test_cases_" ++ today ++ ".json"),
        "Exported Excel: " ++ joinPath OUTPUT_EXCEL ("banking_test_cases_" ++ today ++ ".xlsx"),
        "Pipeline completed successfully"] := by
  rw [finalState, exportSpec_trace, rejState_trace, preState_trace]
  simp only [finalOf, List.append_assoc]


/-! ### Invariance of the input selection under the run prelude -/

theorem load_raw_text_files_congr (fs fs' : FS) (h : fs'.files = fs.files) :
    load_raw_text fs' = load_raw_text fs := by
  unfold load_raw_text rawMatches FS.listdir
  rw [h]

theorem rawMatches_ensure (fs : FS) : rawMatches (ensure_dirs fs) = rawMatches fs := by
  unfold rawMatches FS.listdir
  rw [ensure_dirs_files]

theorem load_raw_text_ensure (fs : FS) :
    load_raw_text (ensure_dirs fs) = load_raw_text fs :=
  load_raw_text_files_congr fs (ensure_dirs fs) (ensure_dirs_files fs)

/-! ### Witness fixtures -/

/-- A filesystem holding one raw-text artifact and nothing else. -/
def fsW : FS := ⟨[], [((EXTRACTED_DIR, "RAW_TEXT_20250101"), ["demo requirement text"])]⟩

/-- `fsW` with the validation directory already present (as in the real
repository, where `validation/` is the validation package directory). -/
def fsWV : FS := ⟨[VALIDATION_DIR], [((EXTRACTED_DIR, "RAW_TEXT_20250101"), ["demo requirement text"])]⟩

/-- Deterministic collaborators that accept everything. -/
def cW : Collab :=
  ⟨fun t => ["REQ " ++ t],
   fun rs => rs.map (fun r => "COV " ++ r),
   fun cs => cs.map (fun x => "TC " ++ x),
   fun ts => (ts, []),
   fun ts => ts⟩

/-- Collaborators whose normalizer finds no requirements. -/
def cNorm0 : Collab := { cW with normalize_requirements := fun _ => [] }

/-- Collaborators whose validator rejects every test case. -/
def cRej : Collab :=
  { cW with validate_testcases := fun ts => ([], ts.map (fun t => t ++ ": rejected")) }

/-- Collaborators whose coverage expander returns nothing. -/
def cExp0 : Collab := { cW with expand_coverage := fun _ => [] }

/-! ### C1: an empty normalizer result is fatal and stops the pipeline -/

set_option maxHeartbeats 1000000 in
/-- C1: when the normalizer returns an empty sequence the run aborts with the
empty-result error; `requirements/normalized_requirements.json` is not
written, no file except the day's audit log changes, the audit trace stops at
the loaded-input entry, and no later stage is invoked (the outcome does not
depend on the expander, generator, validator or deduplicator). -/
theorem emptyNormalizer_aborts (c c' : Collab) (today : String) (fs0 : FS)
    (raw_text raw_file : String)
    (hload : load_raw_text (ensure_dirs fs0) = .ok (raw_text, raw_file))
    (hnorm : c.normalize_requirements raw_text = [])
    (hsame : c'.normalize_requirements = c.normalize_requirements) :
    (mainRun c today fs0).2 = some (.valueError "No testable requirements found") ∧
    getFile (mainRun c today fs0).1.fs.files (REQ_DIR, "normalized_requirements.json")
      = getFile fs0.files (REQ_DIR, "normalized_requirements.json") ∧
    (∀ p : FPath, p ≠ (AUDIT_DIR, auditFile today) →
      getFile (mainRun c today fs0).1.fs.files p = getFile fs0.files p) ∧
    (mainRun c today fs0).1.trace =
      ["Pipeline started", "Loaded raw input: " ++ raw_file] ∧
    mainRun c' today fs0 = mainRun c today fs0 := by
  have key : ∀ cc : Collab, cc.normalize_requirements raw_text = [] →
      mainRun cc today fs0 =
        (auditAppend today (auditAppend today ⟨ensure_dirs fs0, []⟩ "Pipeline started")
          ("Loaded raw input: " ++ raw_file),
         some (.valueError "No testable requirements found")) := by
    intro cc hcc
    have hload' : load_raw_text
        (auditAppend today ⟨ensure_dirs fs0, []⟩ "Pipeline started").fs
        = .ok (raw_text, raw_file) := by
      rw [load_raw_text_auditAppend]
      exact hload
    rw [mainRun_eq_spec]
    simp only [mainSpec, hload', hcc, ite_true, if_pos]
  have h1 := key c hnorm
  have h2 := key c' (by rw [hsame]; exact hnorm)
  rw [h1, h2]
  refine ⟨rfl, ?_, ?_, by simp, rfl⟩
  · rw [getFile_auditAppend_ne _ _ _ _ (fpath_ne_of_dir_ne _ _ (by decide)),
      getFile_auditAppend_ne _ _ _ _ (fpath_ne_of_dir_ne _ _ (by decide))]
    exact congrArg (fun fl => getFile fl _) (ensure_dirs_files fs0)
  · intro p hp
    rw [getFile_auditAppend_ne _ _ _ _ hp, getFile_auditAppend_ne _ _ _ _ hp]
    exact congrArg (fun fl => getFile fl p) (ensure_dirs_files fs0)

/-- Witness for C1 at concrete inputs. -/
theorem emptyNormalizer_aborts_witness :
    (mainRun cNorm0 "2025-06-01" fsW).2 =
      some (.valueError "No testable requirements found") ∧
    getFile (mainRun cNorm0 "2025-06-01" fsW).1.fs.files
        (REQ_DIR, "normalized_requirements.json")
      = getFile fsW.files (REQ_DIR, "normalized_requirements.json") ∧
    (∀ p : FPath, p ≠ (AUDIT_DIR, auditFile "2025-06-01") →
      getFile (mainRun cNorm0 "2025-06-01" fsW).1.fs.files p = getFile fsW.files p) ∧
    (mainRun cNorm0 "2025-06-01" fsW).1.trace =
      ["Pipeline started", "Loaded raw input: " ++ "RAW_TEXT_20250101"] ∧
    mainRun cNorm0 "2025-06-01" fsW = mainRun cNorm0 "2025-06-01" fsW :=
  emptyNormalizer_aborts cNorm0 cNorm0 "2025-06-01" fsW
    "demo requirement text" "RAW_TEXT_20250101" rfl rfl rfl


/-! ### C4: ensure_dirs creates five directories, never the rejects one -/

theorem mkdirs_mem_noop {fs : FS} {d : String} (h : d ∈ fs.dirs) :
    FS.mkdirs fs d = fs := by
  rw [FS.mkdirs, if_pos ((memb_iff d fs.dirs).mpr h)]

theorem foldl_mkdirs_noop : ∀ (L : List String) (fs : FS),
    (∀ d ∈ L, d ∈ fs.dirs) → L.foldl FS.mkdirs fs = fs
  | [], _, _ => rfl
  | d :: L, fs, h => by
    rw [List.foldl_cons, mkdirs_mem_noop (h d (List.mem_cons_self d L))]
    exact foldl_mkdirs_noop L fs (fun d' hd' => h d' (List.mem_cons_of_mem d hd'))

/-- C4 counterexample: on an empty filesystem `ensure_dirs` does not create
the rejects (validation) directory, refuting "including the rejects
directory". -/
theorem ensure_dirs_rejects_cex :
    VALIDATION_DIR ∉ (ensure_dirs (FS.mk [] [])).dirs := by decide

/-- C4 (amended): `ensure_dirs` idempotently creates the five directories
{extracted text, normalized requirements, JSON output, spreadsheet output,
audit}; it never fails, preserves existing directories and all files — but it
does not create the rejects (validation) directory. -/
theorem ensure_dirs_spec (fs : FS) :
    (∀ d ∈ ([EXTRACTED_DIR, REQ_DIR, OUTPUT_JSON, OUTPUT_EXCEL, AUDIT_DIR] : List String),
        d ∈ (ensure_dirs fs).dirs) ∧
    ensure_dirs (ensure_dirs fs) = ensure_dirs fs ∧
    (∀ d ∈ fs.dirs, d ∈ (ensure_dirs fs).dirs) ∧
    (ensure_dirs fs).files = fs.files ∧
    (VALIDATION_DIR ∈ (ensure_dirs fs).dirs ↔ VALIDATION_DIR ∈ fs.dirs) := by
  have hmem : ∀ d ∈ ([EXTRACTED_DIR, REQ_DIR, OUTPUT_JSON, OUTPUT_EXCEL,
      AUDIT_DIR] : List String), d ∈ (ensure_dirs fs).dirs := by
    intro d hd
    rw [mem_ensure_dirs]
    left
    simpa using hd
  refine ⟨hmem, ?_, ?_, ensure_dirs_files fs, validation_mem_ensure fs⟩
  · exact foldl_mkdirs_noop _ _ hmem
  · intro d hd
    rw [mem_ensure_dirs]
    exact Or.inr hd

/-- Witness for C4 (amended) at a concrete input. -/
theorem ensure_dirs_spec_witness :
    AUDIT_DIR ∈ (ensure_dirs (FS.mk [] [])).dirs ∧
    ensure_dirs (ensure_dirs (FS.mk [] [])) = ensure_dirs (FS.mk [] []) ∧
    BASE_DIR ∈ (ensure_dirs (FS.mk [BASE_DIR] [])).dirs :=
  ⟨(ensure_dirs_spec (FS.mk [] [])).1 AUDIT_DIR (by decide),
   (ensure_dirs_spec (FS.mk [] [])).2.1,
   (ensure_dirs_spec (FS.mk [BASE_DIR] [])).2.2.1 BASE_DIR (by decide)⟩

/-! ### C5: a missing raw-text input aborts after one audit entry -/

/-- C5 counterexample: with no matching raw-text file the run raises the
not-found error, yet the day's audit log has already received the
"Pipeline started" entry — refuting "the audit log for the day receives no
entry from that run". -/
theorem missingRawText_audit_cex :
    (mainRun cW "2025-06-01" (FS.mk [] [])).2 =
      some (.fileNotFoundError "No RAW_TEXT file found. Run extraction first.") ∧
    (mainRun cW "2025-06-01" (FS.mk [] [])).1.trace = ["Pipeline started"] ∧
    getFile (mainRun cW "2025-06-01" (FS.mk [] [])).1.fs.files
        (AUDIT_DIR, auditFile "2025-06-01") = some ["Pipeline started"] :=
  ⟨rfl, rfl, rfl⟩

set_option maxHeartbeats 1000000 in
/-- C5 (amended): when no `RAW_TEXT_` file exists the run raises
`NotFoundError` (non-zero exit); the only audit entry the run writes is
"Pipeline started" — no milestone beyond pipeline start — and no other file
changes. -/
theorem missingRawText_spec (c : Collab) (today : String) (fs0 : FS)
    (h : rawMatches fs0 = []) :
    (mainRun c today fs0).2 =
      some (.fileNotFoundError "No RAW_TEXT file found. Run extraction first.") ∧
    (mainRun c today fs0).1.trace = ["Pipeline started"] ∧
    (∀ p : FPath, p ≠ (AUDIT_DIR, auditFile today) →
      getFile (mainRun c today fs0).1.fs.files p = getFile fs0.files p) := by
  have herr : load_raw_text
      (auditAppend today ⟨ensure_dirs fs0, []⟩ "Pipeline started").fs
      = .error (.fileNotFoundError "No RAW_TEXT file found. Run extraction first.") := by
    rw [load_raw_text_auditAppend]
    exact (load_raw_text_spec (ensure_dirs fs0)).1
      (by rw [rawMatches_ensure]; exact h)
  rw [mainRun_eq_spec]
  simp only [mainSpec, herr]
  refine ⟨trivial, by simp, ?_⟩
  intro p hp
  rw [getFile_auditAppend_ne _ _ _ _ hp]
  exact congrArg (fun fl => getFile fl p) (ensure_dirs_files fs0)

/-- Witness for C5 (amended) at a concrete input. -/
theorem missingRawText_spec_witness :
    (mainRun cW "2025-06-02" (FS.mk [] [((INPUT_DIR, "spec.docx"), ["doc"])])).2 =
      some (.fileNotFoundError "No RAW_TEXT file found. Run extraction first.") ∧
    (mainRun cW "2025-06-02" (FS.mk [] [((INPUT_DIR, "spec.docx"), ["doc"])])).1.trace =
      ["Pipeline started"] ∧
    (∀ p : FPath, p ≠ (AUDIT_DIR, auditFile "2025-06-02") →
      getFile (mainRun cW "2025-06-02"
          (FS.mk [] [((INPUT_DIR, "spec.docx"), ["doc"])])).1.fs.files p =
        getFile (FS.mk [] [((INPUT_DIR, "spec.docx"), ["doc"])]).files p) :=
  missingRawText_spec cW "2025-06-02" (FS.mk [] [((INPUT_DIR, "spec.docx"), ["doc"])])
    (by decide)


/-! ### File contents along the success path -/

theorem preState_getFile_other (c : Collab) (today : String) (fs0 : FS)
    (t f : String) (p : FPath)
    (hA : p ≠ (AUDIT_DIR, auditFile today))
    (hR : p ≠ (REQ_DIR, "normalized_requirements.json")) :
    getFile (preState c today fs0 t f).fs.files p = getFile fs0.files p := by
  simp only [preState]
  simp only [getFile_auditAppend_ne, getFile_stSet_ne, hA, hR, ne_eq,
    not_false_eq_true]
  exact congrArg (fun fl => getFile fl p) (ensure_dirs_files fs0)

theorem preState_getFile_req (c : Collab) (today : String) (fs0 : FS)
    (t f : String) :
    getFile (preState c today fs0 t f).fs.files (REQ_DIR, "normalized_requirements.json") =
      some [jsonDump (c.normalize_requirements t)] := by
  have hA : (⟨REQ_DIR, "normalized_requirements.json"⟩ : FPath) ≠
      (AUDIT_DIR, auditFile today) := fpath_ne_of_dir_ne _ _ (by decide)
  simp only [preState]
  simp only [getFile_auditAppend_ne, getFile_stSet_same, hA, ne_eq,
    not_false_eq_true]

theorem rejState_getFile_other (c : Collab) (today : String) (fs0 : FS)
    (t f : String) (p : FPath)
    (hA : p ≠ (AUDIT_DIR, auditFile today))
    (hR : p ≠ (REQ_DIR, "normalized_requirements.json"))
    (hV : p ≠ (VALIDATION_DIR, "reject_log.json")) :
    getFile (rejState c today fs0 t f).fs.files p = getFile fs0.files p := by
  unfold rejState
  split
  · exact preState_getFile_other c today fs0 t f p hA hR
  · simp only [getFile_auditAppend_ne, getFile_stSet_ne, hA, hV, ne_eq,
      not_false_eq_true]
    exact preState_getFile_other c today fs0 t f p hA hR

theorem rejState_getFile_req (c : Collab) (today : String) (fs0 : FS)
    (t f : String) :
    getFile (rejState c today fs0 t f).fs.files (REQ_DIR, "normalized_requirements.json") =
      some [jsonDump (c.normalize_requirements t)] := by
  unfold rejState
  split
  · exact preState_getFile_req c today fs0 t f
  · have hA : (⟨REQ_DIR, "normalized_requirements.json"⟩ : FPath) ≠
        (AUDIT_DIR, auditFile today) := fpath_ne_of_dir_ne _ _ (by decide)
    have hV : (⟨REQ_DIR, "normalized_requirements.json"⟩ : FPath) ≠
        (VALIDATION_DIR, "reject_log.json") := fpath_ne_of_dir_ne _ _ (by decide)
    simp only [getFile_auditAppend_ne, getFile_stSet_ne, hA, hV, ne_eq,
      not_false_eq_true]
    exact preState_getFile_req c today fs0 t f

theorem rejState_getFile_rej (c : Collab) (today : String) (fs0 : FS)
    (t f : String) (hrej : rejectedOf c t ≠ []) :
    getFile (rejState c today fs0 t f).fs.files (VALIDATION_DIR, "reject_log.json") =
      some [jsonDump (rejectedOf c t)] := by
  unfold rejState
  rw [if_neg hrej]
  have hA : (⟨VALIDATION_DIR, "reject_log.json"⟩ : FPath) ≠
      (AUDIT_DIR, auditFile today) := fpath_ne_of_dir_ne _ _ (by decide)
  simp only [getFile_auditAppend_ne, getFile_stSet_same, hA, ne_eq,
    not_false_eq_true]

theorem finalState_getFile_other (c : Collab) (today : String) (fs0 : FS)
    (t f : String) (p : FPath)
    (hA : p ≠ (AUDIT_DIR, auditFile today))
    (hR : p ≠ (REQ_DIR, "normalized_requirements.json"))
    (hV : p ≠ (VALIDATION_DIR, "reject_log.json"))
    (hJ : p.1 ≠ OUTPUT_JSON) (hX : p.1 ≠ OUTPUT_EXCEL) :
    getFile (finalState c today fs0 t f).fs.files p = getFile fs0.files p := by
  rw [finalState, exportSpec_getFile_other c today _ _ p hA hJ hX]
  exact rejState_getFile_other c today fs0 t f p hA hR hV

theorem finalState_getFile_req (c : Collab) (today : String) (fs0 : FS)
    (t f : String) :
    getFile (finalState c today fs0 t f).fs.files (REQ_DIR, "normalized_requirements.json") =
      some [jsonDump (c.normalize_requirements t)] := by
  have hA : (⟨REQ_DIR, "normalized_requirements.json"⟩ : FPath) ≠
      (AUDIT_DIR, auditFile today) := fpath_ne_of_dir_ne _ _ (by decide)
  rw [finalState, exportSpec_getFile_other c today _ _ _ hA (by decide) (by decide)]
  exact rejState_getFile_req c today fs0 t f

theorem finalState_getFile_rej (c : Collab) (today : String) (fs0 : FS)
    (t f : String) (hrej : rejectedOf c t ≠ []) :
    getFile (finalState c today fs0 t f).fs.files (VALIDATION_DIR, "reject_log.json") =
      some [jsonDump (rejectedOf c t)] := by
  have hA : (⟨VALIDATION_DIR, "reject_log.json"⟩ : FPath) ≠
      (AUDIT_DIR, auditFile today) := fpath_ne_of_dir_ne _ _ (by decide)
  rw [finalState, exportSpec_getFile_other c today _ _ _ hA (by decide) (by decide)]
  exact rejState_getFile_rej c today fs0 t f hrej

theorem finalState_getFile_rej_none (c : Collab) (today : String) (fs0 : FS)
    (t f : String) (hrej : rejectedOf c t = []) :
    getFile (finalState c today fs0 t f).fs.files (VALIDATION_DIR, "reject_log.json") =
      getFile fs0.files (VALIDATION_DIR, "reject_log.json") := by
  have hA : (⟨VALIDATION_DIR, "reject_log.json"⟩ : FPath) ≠
      (AUDIT_DIR, auditFile today) := fpath_ne_of_dir_ne _ _ (by decide)
  rw [finalState, exportSpec_getFile_other c today _ _ _ hA (by decide) (by decide)]
  unfold rejState
  rw [if_pos hrej]
  exact preState_getFile_other c today fs0 t f _ hA (fpath_ne_of_dir_ne _ _ (by decide))

theorem finalState_getFile_json (c : Collab) (today : String) (fs0 : FS)
    (t f : String) :
    getFile (finalState c today fs0 t f).fs.files
      (OUTPUT_JSON, "banking_test_cases_" ++ today ++ ".json") =
      some [jsonDump (finalOf c t)] := by
  rw [finalState, exportSpec_getFile_json]
  rfl

theorem finalState_getFile_excel (c : Collab) (today : String) (fs0 : FS)
    (t f : String) :
    getFile (finalState c today fs0 t f).fs.files
      (OUTPUT_EXCEL, "banking_test_cases_" ++ today ++ ".xlsx") =
      some [excelDump (finalOf c t)] := by
  rw [finalState, exportSpec_getFile_excel]
  rfl


/-! ### C3: the reject log is written iff rejects exist — only if the
validation directory exists -/

/-- C3 counterexample: a run that reaches validation with every test case
rejected, on a filesystem without the validation directory: the rejected
subset is non-empty yet `validation/reject_log.json` is not written (and the
run aborts), refuting the unconditional "written iff non-empty". -/
theorem rejectLog_iff_cex :
    rejectedOf cRej "demo requirement text" ≠ [] ∧
    (mainRun cRej "2025-06-01" fsW).2 =
      some (.fileNotFoundError (joinPath VALIDATION_DIR "reject_log.json")) ∧
    getFile (mainRun cRej "2025-06-01" fsW).1.fs.files
        (VALIDATION_DIR, "reject_log.json") = none :=
  ⟨by decide, rfl, rfl⟩

set_option maxHeartbeats 1000000 in
/-- C3 (amended): for a run that reaches validation, provided the validation
directory already exists (in the repository it is the `validation` package
directory), `validation/reject_log.json` is overwritten with exactly the
rejected subset iff that subset is non-empty, and is left untouched when the
subset is empty.  When the directory is missing and the subset non-empty the
run aborts with the file unwritten. -/
theorem rejectLog_spec (c : Collab) (today : String) (fs0 : FS)
    (raw_text raw_file : String)
    (hload : load_raw_text (ensure_dirs fs0) = .ok (raw_text, raw_file))
    (hreq : c.normalize_requirements raw_text ≠ []) :
    (rejectedOf c raw_text = [] →
      getFile (mainRun c today fs0).1.fs.files (VALIDATION_DIR, "reject_log.json") =
        getFile fs0.files (VALIDATION_DIR, "reject_log.json")) ∧
    (rejectedOf c raw_text ≠ [] → VALIDATION_DIR ∈ fs0.dirs →
      getFile (mainRun c today fs0).1.fs.files (VALIDATION_DIR, "reject_log.json") =
        some [jsonDump (rejectedOf c raw_text)]) := by
  constructor
  · intro hrej
    rw [mainRun_success c today fs0 raw_text raw_file hload hreq (Or.inl hrej)]
    exact finalState_getFile_rej_none c today fs0 raw_text raw_file hrej
  · intro hrej hV
    rw [mainRun_success c today fs0 raw_text raw_file hload hreq (Or.inr hV)]
    exact finalState_getFile_rej c today fs0 raw_text raw_file hrej

/-- Witness for C3 (amended): a run with no rejections leaves the file alone;
a run with rejections and an existing validation directory writes exactly the
rejected subset. -/
theorem rejectLog_spec_witness :
    (getFile (mainRun cW "2025-06-01" fsW).1.fs.files
        (VALIDATION_DIR, "reject_log.json") =
      getFile fsW.files (VALIDATION_DIR, "reject_log.json")) ∧
    (getFile (mainRun cRej "2025-06-01" fsWV).1.fs.files
        (VALIDATION_DIR, "reject_log.json") =
      some [jsonDump (rejectedOf cRej "demo requirement text")]) :=
  ⟨(rejectLog_spec cW "2025-06-01" fsW "demo requirement text" "RAW_TEXT_20250101"
      rfl (by decide)).1 rfl,
   (rejectLog_spec cRej "2025-06-01" fsWV "demo requirement text" "RAW_TEXT_20250101"
      rfl (by decide)).2 (by decide) (by decide)⟩

/-! ### C10: ensure_dirs omits the validation directory, so a first rejection
aborts the run -/

set_option maxHeartbeats 1000000 in
/-- C10: `ensure_dirs` never creates the validation directory; consequently a
run whose validator rejects at least one case, on a filesystem where the
validation directory does not exist, aborts on opening
`validation/reject_log.json`: the error is a file-not-found for that path,
the reject log is not written, the audit trace stops at the generated-count
entry (deduplication never runs), and neither export file is written. -/
theorem rejectLog_missing_dir_aborts (c : Collab) (today : String) (fs0 : FS)
    (raw_text raw_file : String)
    (hload : load_raw_text (ensure_dirs fs0) = .ok (raw_text, raw_file))
    (hreq : c.normalize_requirements raw_text ≠ [])
    (hrej : rejectedOf c raw_text ≠ [])
    (hdir : VALIDATION_DIR ∉ fs0.dirs) :
    VALIDATION_DIR ∉ (ensure_dirs fs0).dirs ∧
    (mainRun c today fs0).2 =
      some (.fileNotFoundError (joinPath VALIDATION_DIR "reject_log.json")) ∧
    getFile (mainRun c today fs0).1.fs.files (VALIDATION_DIR, "reject_log.json") =
      getFile fs0.files (VALIDATION_DIR, "reject_log.json") ∧
    (mainRun c today fs0).1.trace =
      ["Pipeline started", "Loaded raw input: " ++ raw_file,
        "Normalized " ++ toString (c.normalize_requirements raw_text).length ++
          " requirements",
        "Expanded to " ++ toString (c.expand_coverage
          (c.normalize_requirements raw_text)).length ++ " coverage intents",
        "Generated " ++ toString (rawCases c raw_text).length ++ " raw test cases"] ∧
    getFile (mainRun c today fs0).1.fs.files
        (OUTPUT_JSON, "banking_test_cases_" ++ today ++ ".json") =
      getFile fs0.files (OUTPUT_JSON, "banking_test_cases_" ++ today ++ ".json") ∧
    getFile (mainRun c today fs0).1.fs.files
        (OUTPUT_EXCEL, "banking_test_cases_" ++ today ++ ".xlsx") =
      getFile fs0.files (OUTPUT_EXCEL, "banking_test_cases_" ++ today ++ ".xlsx") := by
  have hV1 : VALIDATION_DIR ∉ (ensure_dirs fs0).dirs := by
    rw [validation_mem_ensure]
    exact hdir
  have hload' : load_raw_text
      (auditAppend today ⟨ensure_dirs fs0, []⟩ "Pipeline started").fs
      = .ok (raw_text, raw_file) := by
    rw [load_raw_text_auditAppend]
    exact hload
  have hrej' : ¬ (c.validate_testcases (c.generate_testcases (c.expand_coverage
      (c.normalize_requirements raw_text)))).2 = [] := by
    simpa [rejectedOf, rawCases] using hrej
  have hmain : mainRun c today fs0 =
      (preState c today fs0 raw_text raw_file,
       some (.fileNotFoundError (joinPath VALIDATION_DIR "reject_log.json"))) := by
    rw [mainRun_eq_spec]
    simp only [mainSpec, hload', if_neg hreq, if_neg hrej', hdir, ite_false,
      preState, rawCases]
  rw [hmain]
  refine ⟨hV1, rfl, ?_, ?_, ?_, ?_⟩
  · exact preState_getFile_other c today fs0 raw_text raw_file _
      (fpath_ne_of_dir_ne _ _ (by decide)) (fpath_ne_of_dir_ne _ _ (by decide))
  · exact preState_trace c today fs0 raw_text raw_file
  · exact preState_getFile_other c today fs0 raw_text raw_file _
      (fpath_ne_of_dir_ne _ _ (by decide)) (fpath_ne_of_dir_ne _ _ (by decide))
  · exact preState_getFile_other c today fs0 raw_text raw_file _
      (fpath_ne_of_dir_ne _ _ (by decide)) (fpath_ne_of_dir_ne _ _ (by decide))

/-- Witness for C10 at concrete inputs. -/
theorem rejectLog_missing_dir_aborts_witness :
    VALIDATION_DIR ∉ (ensure_dirs fsW).dirs ∧
    (mainRun cRej "2025-06-01" fsW).2 =
      some (.fileNotFoundError (joinPath VALIDATION_DIR "reject_log.json")) ∧
    getFile (mainRun cRej "2025-06-01" fsW).1.fs.files
        (VALIDATION_DIR, "reject_log.json") =
      getFile fsW.files (VALIDATION_DIR, "reject_log.json") ∧
    (mainRun cRej "2025-06-01" fsW).1.trace =
      ["Pipeline started", "Loaded raw input: " ++ "RAW_TEXT_20250101",
        "Normalized " ++ toString (cRej.normalize_requirements
          "demo requirement text").length ++ " requirements",
        "Expanded to " ++ toString (cRej.expand_coverage
          (cRej.normalize_requirements "demo requirement text")).length ++
          " coverage intents",
        "Generated " ++ toString (rawCases cRej "demo requirement text").length ++
          " raw test cases"] ∧
    getFile (mainRun cRej "2025-06-01" fsW).1.fs.files
        (OUTPUT_JSON, "banking_test_cases_" ++ "2025-06-01" ++ ".json") =
      getFile fsW.files (OUTPUT_JSON, "banking_test_cases_" ++ "2025-06-01" ++ ".json") ∧
    getFile (mainRun cRej "2025-06-01" fsW).1.fs.files
        (OUTPUT_EXCEL, "banking_test_cases_" ++ "2025-06-01" ++ ".xlsx") =
      getFile fsW.files (OUTPUT_EXCEL, "banking_test_cases_" ++ "2025-06-01" ++ ".xlsx") :=
  rejectLog_missing_dir_aborts cRej "2025-06-01" fsW
    "demo requirement text" "RAW_TEXT_20250101" rfl (by decide) (by decide) (by decide)


/-! ### C7: the audit trail of a successful run -/

set_option maxHeartbeats 1000000 in
/-- C7: every run that completes successfully appends the audit entries in
fixed order — started, loaded input, normalized count, expanded count,
generated count, rejected count exactly when rejections occurred, final
count, JSON export path, Excel export path, completion — at least 9 entries,
ending with "Pipeline completed successfully". -/
theorem audit_trail_success (c : Collab) (today : String) (fs0 : FS) (s : St)
    (hrun : mainRun c today fs0 = (s, none)) :
    9 ≤ s.trace.length ∧
    s.trace.getLast? = some "Pipeline completed successfully" ∧
    ∃ (raw_file : String) (nreq ncov ngen nrej nfin : Nat),
      s.trace =
        ["Pipeline started", "Loaded raw input: " ++ raw_file,
          "Normalized " ++ toString nreq ++ " requirements",
          "Expanded to " ++ toString ncov ++ " coverage intents",
          "Generated " ++ toString ngen ++ " raw test cases"] ++
        (if nrej = 0 then []
         else ["Rejected " ++ toString nrej ++ " invalid test cases"]) ++
        ["Final test case count after de-duplication: " ++ toString nfin,
          "Exported JSON: " ++
            joinPath OUTPUT_JSON ("banking_test_cases_" ++ today ++ ".json"),
          "Exported Excel: " ++
            joinPath OUTPUT_EXCEL ("banking_test_cases_" ++ today ++ ".xlsx"),
          "Pipeline completed successfully"] := by
  obtain ⟨t, f, hload, hreq, hrejdir, hs⟩ := mainRun_none_inv c today fs0 s hrun
  subst hs
  by_cases hrej : rejectedOf c t = []
  · rw [finalState_trace, if_pos hrej]
    refine ⟨Nat.le_refl 9, rfl, f, (c.normalize_requirements t).length,
      (c.expand_coverage (c.normalize_requirements t)).length,
      (rawCases c t).length, 0, (finalOf c t).length, by simp⟩
  · have hn0 : (rejectedOf c t).length ≠ 0 := by
      intro h0
      exact hrej (List.length_eq_zero.mp h0)
    rw [finalState_trace, if_neg hrej]
    refine ⟨Nat.le_succ 9, rfl, f, (c.normalize_requirements t).length,
      (c.expand_coverage (c.normalize_requirements t)).length,
      (rawCases c t).length, (rejectedOf c t).length, (finalOf c t).length,
      by simp [hn0]⟩

/-- Witness for C7 at a concrete successful run. -/
theorem audit_trail_success_witness :
    9 ≤ (mainRun cW "2025-06-01" fsW).1.trace.length ∧
    (mainRun cW "2025-06-01" fsW).1.trace.getLast? =
      some "Pipeline completed successfully" ∧
    ∃ (raw_file : String) (nreq ncov ngen nrej nfin : Nat),
      (mainRun cW "2025-06-01" fsW).1.trace =
        ["Pipeline started", "Loaded raw input: " ++ raw_file,
          "Normalized " ++ toString nreq ++ " requirements",
          "Expanded to " ++ toString ncov ++ " coverage intents",
          "Generated " ++ toString ngen ++ " raw test cases"] ++
        (if nrej = 0 then []
         else ["Rejected " ++ toString nrej ++ " invalid test cases"]) ++
        ["Final test case count after de-duplication: " ++ toString nfin,
          "Exported JSON: " ++
            joinPath OUTPUT_JSON ("banking_test_cases_" ++ "2025-06-01" ++ ".json"),
          "Exported Excel: " ++
            joinPath OUTPUT_EXCEL ("banking_test_cases_" ++ "2025-06-01" ++ ".xlsx"),
          "Pipeline completed successfully"] :=
  audit_trail_success cW "2025-06-01" fsW (mainRun cW "2025-06-01" fsW).1 rfl

/-! ### C8: an empty coverage expansion is not fatal -/

set_option maxHeartbeats 1000000 in
/-- C8: when the coverage expander returns an empty sequence the run does not
abort at that stage — there is no emptiness check there, unlike the fatal
empty-normalizer case — and the pipeline proceeds through generation,
validation, deduplication and both exports to success. -/
theorem emptyExpansion_not_fatal (c : Collab) (today : String) (fs0 : FS)
    (raw_text raw_file : String)
    (hload : load_raw_text (ensure_dirs fs0) = .ok (raw_text, raw_file))
    (hreq : c.normalize_requirements raw_text ≠ [])
    (hexp : c.expand_coverage (c.normalize_requirements raw_text) = [])
    (hrejdir : rejectedOf c raw_text = [] ∨ VALIDATION_DIR ∈ fs0.dirs) :
    (mainRun c today fs0).2 = none ∧
    "Expanded to 0 coverage intents" ∈ (mainRun c today fs0).1.trace ∧
    (mainRun c today fs0).1.trace.getLast? =
      some "Pipeline completed successfully" := by
  rw [mainRun_success c today fs0 raw_text raw_file hload hreq hrejdir]
  refine ⟨rfl, ?_, ?_⟩
  · rw [finalState_trace, hexp]
    have he : ("Expanded to " ++ toString ([] : List String).length ++
        " coverage intents") = "Expanded to 0 coverage intents" := rfl
    rw [he]
    exact List.mem_append_left _ (List.mem_append_left _ (by simp))
  · by_cases hrej : rejectedOf c raw_text = []
    · rw [finalState_trace, if_pos hrej]
      rfl
    · rw [finalState_trace, if_neg hrej]
      rfl

/-- Witness for C8 at concrete inputs. -/
theorem emptyExpansion_not_fatal_witness :
    (mainRun cExp0 "2025-06-01" fsW).2 = none ∧
    "Expanded to 0 coverage intents" ∈ (mainRun cExp0 "2025-06-01" fsW).1.trace ∧
    (mainRun cExp0 "2025-06-01" fsW).1.trace.getLast? =
      some "Pipeline completed successfully" :=
  emptyExpansion_not_fatal cExp0 "2025-06-01" fsW
    "demo requirement text" "RAW_TEXT_20250101" rfl (by decide) rfl (Or.inl rfl)

/-! ### C6: the final set never grows past the valid subset or the raw set -/

/-- C6: for every completed run, with the validator partitioning its input
(len valid + len rejected = len input) and the deduplicator returning a
subsequence of its input — the spec's collaborator contracts — the final
de-duplicated set is at most as long as the valid subset, which is at most as
long as the raw generated sequence. -/
theorem final_le_valid_le_raw (c : Collab) (today : String) (fs0 : FS) (s : St)
    (hrun : mainRun c today fs0 = (s, none))
    (hval : ∀ cases, (c.validate_testcases cases).1.length +
      (c.validate_testcases cases).2.length = cases.length)
    (hdedup : ∀ l, (c.deduplicate l).Sublist l) :
    ∃ raw_text raw_file,
      load_raw_text (ensure_dirs fs0) = .ok (raw_text, raw_file) ∧
      (finalOf c raw_text).length ≤ (validOf c raw_text).length ∧
      (validOf c raw_text).length ≤ (rawCases c raw_text).length := by
  obtain ⟨t, f, hload, _, _, _⟩ := mainRun_none_inv c today fs0 s hrun
  refine ⟨t, f, hload, ?_, ?_⟩
  · exact (hdedup (validOf c t)).length_le
  · exact Nat.le.intro (hval (rawCases c t))

/-- Witness for C6 at a concrete run with deterministic collaborators. -/
theorem final_le_valid_le_raw_witness :
    ∃ raw_text raw_file,
      load_raw_text (ensure_dirs fsW) = .ok (raw_text, raw_file) ∧
      (finalOf cW raw_text).length ≤ (validOf cW raw_text).length ∧
      (validOf cW raw_text).length ≤ (rawCases cW raw_text).length :=
  final_le_valid_le_raw cW "2025-06-01" fsW (mainRun cW "2025-06-01" fsW).1 rfl
    (fun cases => by simp [cW]) (fun l => List.Sublist.refl l)


/-! ### C9: same-day reruns overwrite the same files with the same content -/

theorem names_auditAppend_ne (today : String) (s : St) (m d : String)
    (h : AUDIT_DIR ≠ d) :
    names (auditAppend today s m).fs.files d = names s.fs.files d :=
  names_setFile_ne _ _ _ _ h

theorem names_stSet_ne (s : St) (d' n v d : String) (h : d' ≠ d) :
    names (stSet s d' n v).fs.files d = names s.fs.files d :=
  names_setFile_ne _ _ _ _ h

theorem load_raw_text_eq_of_extracted (fs' fs : FS)
    (hn : names fs'.files EXTRACTED_DIR = names fs.files EXTRACTED_DIR)
    (hg : ∀ n, getFile fs'.files (EXTRACTED_DIR, n) =
      getFile fs.files (EXTRACTED_DIR, n)) :
    load_raw_text fs' = load_raw_text fs := by
  unfold load_raw_text rawMatches FS.listdir
  rw [hn]
  simp only [hg]

theorem preState_extracted (c : Collab) (today : String) (fs0 : FS) (t f : String) :
    names (preState c today fs0 t f).fs.files EXTRACTED_DIR =
      names fs0.files EXTRACTED_DIR ∧
    ∀ n, getFile (preState c today fs0 t f).fs.files (EXTRACTED_DIR, n) =
      getFile fs0.files (EXTRACTED_DIR, n) := by
  have hA : AUDIT_DIR ≠ EXTRACTED_DIR := by decide
  have hR : REQ_DIR ≠ EXTRACTED_DIR := by decide
  constructor
  · simp only [preState]
    simp only [names_auditAppend_ne, names_stSet_ne, hA, hR, ne_eq,
      not_false_eq_true]
    exact congrArg (fun fl => names fl EXTRACTED_DIR) (ensure_dirs_files fs0)
  · intro n
    exact preState_getFile_other c today fs0 t f _
      (fpath_ne_of_dir_ne _ _ (by decide)) (fpath_ne_of_dir_ne _ _ (by decide))

theorem rejState_extracted (c : Collab) (today : String) (fs0 : FS) (t f : String) :
    names (rejState c today fs0 t f).fs.files EXTRACTED_DIR =
      names fs0.files EXTRACTED_DIR ∧
    ∀ n, getFile (rejState c today fs0 t f).fs.files (EXTRACTED_DIR, n) =
      getFile fs0.files (EXTRACTED_DIR, n) := by
  have hA : AUDIT_DIR ≠ EXTRACTED_DIR := by decide
  have hV : VALIDATION_DIR ≠ EXTRACTED_DIR := by decide
  constructor
  · unfold rejState
    split
    · exact (preState_extracted c today fs0 t f).1
    · simp only [names_auditAppend_ne, names_stSet_ne, hA, hV, ne_eq,
        not_false_eq_true]
      exact (preState_extracted c today fs0 t f).1
  · intro n
    exact rejState_getFile_other c today fs0 t f _
      (fpath_ne_of_dir_ne _ _ (by decide)) (fpath_ne_of_dir_ne _ _ (by decide))
      (fpath_ne_of_dir_ne _ _ (by decide))

theorem finalState_extracted (c : Collab) (today : String) (fs0 : FS) (t f : String) :
    names (finalState c today fs0 t f).fs.files EXTRACTED_DIR =
      names fs0.files EXTRACTED_DIR ∧
    ∀ n, getFile (finalState c today fs0 t f).fs.files (EXTRACTED_DIR, n) =
      getFile fs0.files (EXTRACTED_DIR, n) := by
  have hA : AUDIT_DIR ≠ EXTRACTED_DIR := by decide
  have hJ : OUTPUT_JSON ≠ EXTRACTED_DIR := by decide
  have hX : OUTPUT_EXCEL ≠ EXTRACTED_DIR := by decide
  constructor
  · rw [finalState]
    simp only [exportSpec]
    simp only [names_auditAppend_ne, names_stSet_ne, hA, hJ, hX, ne_eq,
      not_false_eq_true]
    exact (rejState_extracted c today fs0 t f).1
  · intro n
    have hJ' : EXTRACTED_DIR ≠ OUTPUT_JSON := by decide
    have hX' : EXTRACTED_DIR ≠ OUTPUT_EXCEL := by decide
    exact finalState_getFile_other c today fs0 t f _
      (fpath_ne_of_dir_ne _ _ (by decide)) (fpath_ne_of_dir_ne _ _ (by decide))
      (fpath_ne_of_dir_ne _ _ (by decide)) hJ' hX' 

set_option maxHeartbeats 1000000 in
/-- C9: after a successful run, running the pipeline again on the same day
with the same raw-text input and the same pure (deterministic) collaborators
succeeds as well and overwrites the same date-stamped files — the
normalized-requirements snapshot, the JSON export and the Excel export — with
identical content: the second run leaves those files exactly as the first
left them (overwrite, not accumulate). -/
theorem sameDay_idempotent (c : Collab) (today : String) (fs0 : FS) (s1 : St)
    (hrun1 : mainRun c today fs0 = (s1, none)) :
    ∃ s2, mainRun c today s1.fs = (s2, none) ∧
      getFile s2.fs.files (REQ_DIR, "normalized_requirements.json") =
        getFile s1.fs.files (REQ_DIR, "normalized_requirements.json") ∧
      getFile s2.fs.files (OUTPUT_JSON, "banking_test_cases_" ++ today ++ ".json") =
        getFile s1.fs.files (OUTPUT_JSON, "banking_test_cases_" ++ today ++ ".json") ∧
      getFile s2.fs.files (OUTPUT_EXCEL, "banking_test_cases_" ++ today ++ ".xlsx") =
        getFile s1.fs.files (OUTPUT_EXCEL, "banking_test_cases_" ++ today ++ ".xlsx") ∧
      (getFile s1.fs.files (REQ_DIR, "normalized_requirements.json")).isSome ∧
      (getFile s1.fs.files (OUTPUT_JSON,
        "banking_test_cases_" ++ today ++ ".json")).isSome ∧
      (getFile s1.fs.files (OUTPUT_EXCEL,
        "banking_test_cases_" ++ today ++ ".xlsx")).isSome := by
  obtain ⟨t, f, hload, hreq, hrejdir, hs⟩ := mainRun_none_inv c today fs0 s1 hrun1
  subst hs
  have hEx := finalState_extracted c today fs0 t f
  have hload2 : load_raw_text (ensure_dirs (finalState c today fs0 t f).fs) =
      .ok (t, f) := by
    rw [load_raw_text_ensure]
    rw [load_raw_text_eq_of_extracted (finalState c today fs0 t f).fs fs0 hEx.1 hEx.2]
    rw [← load_raw_text_ensure]
    exact hload
  have hrejdir2 : rejectedOf c t = [] ∨
      VALIDATION_DIR ∈ (finalState c today fs0 t f).fs.dirs := by
    rcases hrejdir with h | h
    · exact Or.inl h
    · right
      rw [finalState_dirs]
      exact (validation_mem_ensure fs0).mpr h
  refine ⟨finalState c today (finalState c today fs0 t f).fs t f,
    mainRun_success c today (finalState c today fs0 t f).fs t f hload2 hreq hrejdir2,
    ?_, ?_, ?_, ?_, ?_, ?_⟩
  · rw [finalState_getFile_req, finalState_getFile_req]
  · rw [finalState_getFile_json, finalState_getFile_json]
  · rw [finalState_getFile_excel, finalState_getFile_excel]
  · rw [finalState_getFile_req]
    rfl
  · rw [finalState_getFile_json]
    rfl
  · rw [finalState_getFile_excel]
    rfl

/-- Witness for C9 at a concrete run. -/
theorem sameDay_idempotent_witness :
    ∃ s2, mainRun cW "2025-06-01" (mainRun cW "2025-06-01" fsW).1.fs = (s2, none) ∧
      getFile s2.fs.files (REQ_DIR, "normalized_requirements.json") =
        getFile (mainRun cW "2025-06-01" fsW).1.fs.files
          (REQ_DIR, "normalized_requirements.json") ∧
      getFile s2.fs.files
          (OUTPUT_JSON, "banking_test_cases_" ++ "2025-06-01" ++ ".json") =
        getFile (mainRun cW "2025-06-01" fsW).1.fs.files
          (OUTPUT_JSON, "banking_test_cases_" ++ "2025-06-01" ++ ".json") ∧
      getFile s2.fs.files
          (OUTPUT_EXCEL, "banking_test_cases_" ++ "2025-06-01" ++ ".xlsx") =
        getFile (mainRun cW "2025-06-01" fsW).1.fs.files
          (OUTPUT_EXCEL, "banking_test_cases_" ++ "2025-06-01" ++ ".xlsx") ∧
      (getFile (mainRun cW "2025-06-01" fsW).1.fs.files
        (REQ_DIR, "normalized_requirements.json")).isSome ∧
      (getFile (mainRun cW "2025-06-01" fsW).1.fs.files
        (OUTPUT_JSON, "banking_test_cases_" ++ "2025-06-01" ++ ".json")).isSome ∧
      (getFile (mainRun cW "2025-06-01" fsW).1.fs.files
        (OUTPUT_EXCEL, "banking_test_cases_" ++ "2025-06-01" ++ ".xlsx")).isSome :=
  sameDay_idempotent cW "2025-06-01" fsW (mainRun cW "2025-06-01" fsW).1 rfl

end TestCaseGenerator
